import Mathlib

/-!
Shallow embedding of the license server (`app.py`, `db.py`): the Razorpay
webhook handler, the license-key store, and the key generator.

Modelling conventions:
* JSON values are `JVal`; a parsed JSON object body is a `List (String × JVal)`
  association list (Python dict keys are unique, first match wins).
* Python string operations are embedded explicitly: `pyStrip` is `str.strip()`,
  `pyLower` is `str.lower()`, `pyUpper` is `str.upper()`.
* The store is the default SQLite backend (`DATABASE_URL` unset): a list of
  rows in rowid (insertion) order.  `INSERT OR REPLACE` deletes every row that
  conflicts with the inserted row on the `license_key` PRIMARY KEY or on the
  `payment_id` UNIQUE column, then inserts the new row with a fresh largest
  rowid, i.e. at the end of scan order.  The Postgres branch of `add_key`
  (`ON CONFLICT (license_key) DO UPDATE`) is embedded separately as
  `add_key_postgres`; there a `payment_id` collision raises, modelled as
  `Except.error`.
* External effects are oracles: `libVerifies` stands for the Razorpay
  library function `verify_webhook_signature` succeeding without an exception,
  `fetchResult` for the e-mail value recovered by `client.payment.fetch`
  (`none` = the fetch raised), `emailSent` for the result of `send_license_email`,
  and the fresh random bytes of `secrets.token_hex` are passed as byte lists.
* A handler result of `none` models an uncaught Python exception (HTTP 500);
  payloads whose relevant present fields are non-string truthy values are out
  of scope of the embedding (the provider schema makes them strings).
-/

/-- JSON values as parsed by `request.get_json`. -/
inductive JVal where
  | jnull
  | jbool (b : Bool)
  | jnum (n : Int)
  | jstr (s : String)
  | jarr (elems : List JVal)
  | jobj (fields : List (String × JVal))

/-- Python truthiness of a JSON value (`bool(x)`). -/
def JVal.truthy : JVal → Bool
  | .jnull => false
  | .jbool b => b
  | .jnum n => n != 0
  | .jstr s => s != ""
  | .jarr l => !l.isEmpty
  | .jobj f => !f.isEmpty

/-- Embeds `d.get(key)` on a Python dict: `none` when the key is absent. -/
def dictGet : List (String × JVal) → String → Option JVal
  | [], _ => none
  | (k, v) :: rest, key => if k == key then some v else dictGet rest key

/-- Python equality test of a JSON value against a string literal
(`data.get("event") == "..."`); a missing key (`None`) compares unequal. -/
def isStrEq (v : Option JVal) (s : String) : Bool :=
  match v with
  | some (.jstr t) => t == s
  | _ => false

/-- The whitespace characters removed by Python `str.strip()` (ASCII range). -/
def pyIsSpace (c : Char) : Bool :=
  " \t\n\r\x0b\x0c".data.contains c

/-- Strip leading and trailing whitespace from a character list. -/
def stripChars (l : List Char) : List Char :=
  ((l.dropWhile pyIsSpace).reverse.dropWhile pyIsSpace).reverse

/-- Python `s.strip()`. -/
def pyStrip (s : String) : String := String.mk (stripChars s.data)

/-- Python `s.lower()` (ASCII case folding, enough for the e-mails modelled). -/
def pyLower (s : String) : String := String.mk (s.data.map Char.toLower)

/-- Python `s.upper()` (ASCII case folding). -/
def pyUpper (s : String) : String := String.mk (s.data.map Char.toUpper)

/-- Python `x or ""` applied to an optional string argument
(`order_id = order_id or ""` in `add_key`): `None` and `""` both become `""`. -/
def pyOrStr : Option String → String
  | none => ""
  | some s => if s == "" then "" else s

/-- Embeds `(d.get(k) or "")` for a string-typed JSON field: an absent key or a falsy
value coalesces to `""`; a truthy non-string value is out of the scope of the embedding
 (`none`). -/
def pyStrField (v : Option JVal) : Option String :=
  match v with
  | none => some ""
  | some j => if j.truthy then (match j with | .jstr s => some s | _ => none) else some ""

/-- One row of the `license_keys` table (`db.py`).  `order_id` and
`payment_id` are never NULL because `add_key` coerces absent values to `""`. -/
structure Record where
  license_key : String
  email : String
  order_id : String
  payment_id : String
deriving DecidableEq

/-- Embeds `db.add_key` on the default SQLite backend.  `INSERT OR REPLACE` first
deletes every row conflicting on the `license_key` PRIMARY KEY or the
`payment_id` UNIQUE column, then inserts the new row with the largest rowid
(last in table-scan order). -/
def add_key (store : List Record) (license_key : String) (email : String)
    (order_id : Option String := none) (payment_id : Option String := none) :
    List Record :=
  let o := pyOrStr order_id
  let p := pyOrStr payment_id
  (store.filter (fun r => r.license_key != license_key && r.payment_id != p)) ++
    [⟨license_key, email, o, p⟩]

/-- Embeds `db.add_key` on the Postgres backend: `ON CONFLICT (license_key) DO
UPDATE` overwrites the row with the same key; a violation of the
`payment_id` UNIQUE constraint by a different row raises
(`Except.error`), which the handlers do not catch. -/
def add_key_postgres (store : List Record) (license_key : String)
    (email : String) (order_id : Option String := none)
    (payment_id : Option String := none) : Except Unit (List Record) :=
  let o := pyOrStr order_id
  let p := pyOrStr payment_id
  if store.any (fun r => r.license_key == license_key) then
    if store.any (fun r => r.license_key != license_key && r.payment_id == p) then
      .error ()
    else
      .ok (store.map (fun r => if r.license_key == license_key then ⟨license_key, email, o, p⟩ else r))
  else if store.any (fun r => r.payment_id == p) then
    .error ()
  else
    .ok (store ++ [⟨license_key, email, o, p⟩])

/-- Embeds `db.is_valid_key`: blank or whitespace-only input short-circuits to
`false` without querying; otherwise the stripped input is matched exactly
against stored keys. -/
def is_valid_key (store : List Record) (license_key : String) : Bool :=
  if license_key == "" || pyStrip license_key == "" then false
  else store.any (fun r => r.license_key == pyStrip license_key)

/-- Embeds `db.get_key_by_order`: `SELECT license_key ... WHERE order_id = ?` with
`fetchone()` and no `ORDER BY`; the full table scan yields rows in rowid
(insertion) order, so the first matching row wins. -/
def get_key_by_order (store : List Record) (order_id : String) : Option String :=
  (store.find? (fun r => r.order_id == order_id)).map (fun r => r.license_key)

/-- Embeds `db.email_has_license`: blank input short-circuits to `false`; otherwise
the input is stripped and lowercased and compared against `LOWER(email)` of
each stored row. -/
def email_has_license (store : List Record) (email : String) : Bool :=
  if email == "" || pyStrip email == "" then false
  else store.any (fun r => pyLower r.email == pyLower (pyStrip email))

/-- The 16 lowercase hexadecimal digits, as produced by `secrets.token_hex`. -/
def hexDigits : List Char := "0123456789abcdef".data

/-- The two lowercase hex characters of one byte. -/
def byteToHexChars (b : Nat) : List Char :=
  [hexDigits.getD (b / 16) '0', hexDigits.getD (b % 16) '0']

/-- Embeds `secrets.token_hex` applied to the given random bytes: two lowercase hex
characters per byte. -/
def token_hex (bytes : List Nat) : String :=
  String.mk (bytes.flatMap byteToHexChars)

/-- Embeds `app.generate_license_key`, with the random bytes drawn by the two
independent `secrets.token_hex` calls passed explicitly (`b1` has 4 bytes,
`b2` has 2 bytes).  The e-mail and order id are not inputs: the key cannot
depend on them. -/
def generate_license_key (b1 b2 : List Nat) : String :=
  "SQLH-" ++ pyUpper (token_hex b1) ++ "-" ++ pyUpper (token_hex b2)

/-- Uppercase hexadecimal digit test. -/
def isUpperHexDigit (c : Char) : Bool :=
  "0123456789ABCDEF".data.contains c

/-- The `payment_link.paid` extraction of `razorpay_webhook` (`app.py`):
e-mail from `payload.payment_link.entity.customer.email` (stripped), order id
from `...entity.reference_id`, payment id from the first element of
`...entity.payments`, each `isinstance` guard and `or`-coalescing mirrored;
`none` models an uncaught exception (`payload.get` on a non-dict payload). -/
def extract_payment_link (payload : JVal) : Option (String × String × String) :=
  match payload with
  | .jobj pf =>
    let plink := (dictGet pf "payment_link").getD (.jobj [])
    let plEntity : JVal :=
      match plink with
      | .jobj pl => (dictGet pl "entity").getD (.jobj pl)
      | _ => .jobj []
    match plEntity with
    | .jobj pe =>
      let customer : JVal :=
        match dictGet pe "customer" with
        | some c => if c.truthy then c else .jobj []
        | none => .jobj []
      let emailO : Option String :=
        match customer with
        | .jobj cf => (pyStrField (dictGet cf "email")).map pyStrip
        | _ => some ""
      let orderO : Option String := pyStrField (dictGet pe "reference_id")
      let paymentO : Option String :=
        match dictGet pe "payments" with
        | some (.jarr (first :: _)) =>
          match first with
          | .jobj ff => pyStrField (dictGet ff "id")
          | _ => some ""
        | _ => some ""
      match emailO, orderO, paymentO with
      | some e, some o, some p => some (e, o, p)
      | _, _, _ => none
    | _ => some ("", "", "")
  | _ => none

/-- The `payment.captured` extraction of `razorpay_webhook` (`app.py`), before
the fetch fallback: fields from `payload.payment.entity` (or `payload.payment`
itself when it has no `entity` key); `none` models an uncaught exception
(`.get` called on a non-dict value). -/
def extract_payment_captured (payload : JVal) : Option (String × String × String) :=
  match payload with
  | .jobj pf =>
    let payment := (dictGet pf "payment").getD (.jobj [])
    match payment with
    | .jobj pm =>
      let entity := (dictGet pm "entity").getD (.jobj pm)
      match entity with
      | .jobj en =>
        let emailO : Option String := (pyStrField (dictGet en "email")).map pyStrip
        let orderO : Option String := pyStrField (dictGet en "order_id")
        let payO : Option String := pyStrField (dictGet en "id")
        match emailO, orderO, payO with
        | some e, some o, some p => some (e, o, p)
        | _, _, _ => none
      | _ => none
    | _ => none
  | _ => none

/-- The best-effort e-mail recovery of the `payment.captured` branch: when the
payload e-mail is blank, a payment id exists and API keys are configured, the
payment is fetched and `(fetched email or "").strip()` replaces the e-mail;
`fetchResult = none` models the fetch raising, which leaves the e-mail as is. -/
def captured_email (e0 payment_id : String) (haveApiKeys : Bool)
    (fetchResult : Option String) : String :=
  if e0 == "" && payment_id != "" && haveApiKeys then
    match fetchResult with
    | some s => pyStrip s
    | none => e0
  else e0

/-- Embeds `app.verify_razorpay_signature`: fails closed when the configured secret
or the signature header is empty; otherwise succeeds exactly when the Razorpay
library verifies without raising (`libVerifies`). -/
def verify_razorpay_signature (webhookSecret signature : String)
    (libVerifies : Bool) : Bool :=
  if webhookSecret == "" || signature == "" then false else libVerifies

/-- An HTTP response: status code and JSON body (an object). -/
structure HttpResponse where
  status : Nat
  body : List (String × JVal)

/-- Embeds `app.razorpay_webhook` over the SQLite-backed store.  `data` is the parsed
JSON object body (`none` models an unparsable body, which
`get_json(force=True, silent=True) or {}` turns into `{}`); `freshKey` is the
value `generate_license_key` returns on this request; the result pairs the
response with the resulting store, `none` modelling an uncaught exception. -/
def razorpay_webhook (webhookSecret signature : String) (libVerifies : Bool)
    (data : Option (List (String × JVal))) (haveApiKeys : Bool)
    (fetchResult : Option String) (emailSent : Bool) (freshKey : String)
    (store : List Record) : Option (HttpResponse × List Record) :=
  if !(verify_razorpay_signature webhookSecret signature libVerifies) then
    some (⟨400, [("ok", .jbool false), ("error", .jstr "Invalid signature")]⟩, store)
  else
    let d := data.getD []
    let event := dictGet d "event"
    let payload := (dictGet d "payload").getD (.jobj [])
    if isStrEq event "payment_link.paid" then
      match extract_payment_link payload with
      | none => none
      | some (email, order_id, payment_id) =>
        if email == "" then
          some (⟨400, [("ok", .jbool false),
                       ("error", .jstr "Missing email in payment_link.paid")]⟩, store)
        else
          some (⟨200, [("ok", .jbool true), ("license_key", .jstr freshKey),
                       ("email_sent", .jbool emailSent)]⟩,
                add_key store freshKey email (some order_id) (some payment_id))
    else if !(isStrEq event "payment.captured") then
      some (⟨200, [("ok", .jbool true), ("message", .jstr "Event ignored")]⟩, store)
    else
      match extract_payment_captured payload with
      | none => none
      | some (e0, order_id, payment_id) =>
        let email := captured_email e0 payment_id haveApiKeys fetchResult
        if email == "" then
          some (⟨400, [("ok", .jbool false), ("error", .jstr "Missing email")]⟩, store)
        else
          some (⟨200, [("ok", .jbool true), ("license_key", .jstr freshKey),
                       ("email_sent", .jbool emailSent)]⟩,
                add_key store freshKey email (some order_id) (some payment_id))

/-- A list whose characters are all non-whitespace is unchanged by
`List.dropWhile pyIsSpace` (only the head matters). -/
theorem dropWhile_pyIsSpace_eq_self (l : List Char)
    (h : ∀ c ∈ l, pyIsSpace c = false) : l.dropWhile pyIsSpace = l := by
  cases l with
  | nil => rfl
  | cons a as =>
    rw [List.dropWhile_cons, h a (List.mem_cons_self a as)]
    simp

/-- Stripping a list of non-whitespace characters is the identity. -/
theorem stripChars_eq_self (l : List Char)
    (h : ∀ c ∈ l, pyIsSpace c = false) : stripChars l = l := by
  unfold stripChars
  rw [dropWhile_pyIsSpace_eq_self l h,
    dropWhile_pyIsSpace_eq_self l.reverse
      (fun c hc => h c (List.mem_reverse.mp hc)),
    List.reverse_reverse]

/-- Python strip is the identity on strings without whitespace characters. -/
theorem pyStrip_eq_self (s : String)
    (h : ∀ c ∈ s.data, pyIsSpace c = false) : pyStrip s = s := by
  unfold pyStrip
  rw [stripChars_eq_self s.data h]

/-- Python strip of the empty string is the empty string. -/
theorem pyStrip_empty : pyStrip "" = "" := rfl

/-- Coercion of an explicitly given optional argument (`x or ""`). -/
theorem pyOrStr_some (s : String) : pyOrStr (some s) = s := by
  unfold pyOrStr
  by_cases h : s = ""
  · simp [h]
  · simp [h]

/-- A lowercased string is empty only if the string is empty. -/
theorem pyLower_eq_empty_iff (s : String) : pyLower s = "" ↔ s = "" := by
  unfold pyLower
  constructor
  · intro h
    have hd : s.data.map Char.toLower = ([] : List Char) := congrArg String.data h
    have : s.data = [] := List.map_eq_nil_iff.mp hd
    cases s
    simp_all
  · intro h
    rw [h]
    rfl

/-- Indexing `hexDigits` below its length stays inside `hexDigits`. -/
theorem hexDigits_getD_mem (i : Nat) (h : i < 16) :
    hexDigits.getD i '0' ∈ hexDigits := by
  have hall : ∀ j < 16, hexDigits.getD j '0' ∈ hexDigits := by decide
  exact hall i h

/-- Both hex characters of a byte are hexadecimal digits. -/
theorem byteToHexChars_mem (b : Nat) (hb : b < 256) :
    ∀ c ∈ byteToHexChars b, c ∈ hexDigits := by
  intro c hc
  have h1 : b / 16 < 16 := Nat.div_lt_of_lt_mul hb
  have h2 : b % 16 < 16 := Nat.mod_lt b (by norm_num)
  unfold byteToHexChars at hc
  simp only [List.mem_cons, List.not_mem_nil, or_false] at hc
  rcases hc with rfl | rfl
  · exact hexDigits_getD_mem _ h1
  · exact hexDigits_getD_mem _ h2

/-- Characters and length of a `token_hex` output: two hex characters per
input byte. -/
theorem token_hex_spec (bytes : List Nat) (h : ∀ b ∈ bytes, b < 256) :
    (token_hex bytes).data.length = 2 * bytes.length ∧
      ∀ c ∈ (token_hex bytes).data, c ∈ hexDigits := by
  unfold token_hex
  constructor
  · induction bytes with
    | nil => rfl
    | cons b bs ih =>
      have ihlen := ih (fun x hx => h x (List.mem_cons_of_mem b hx))
      simp only [List.flatMap_cons, List.length_append] at *
      rw [ihlen]
      simp only [byteToHexChars, List.length_cons, List.length_nil]
      omega
  · intro c hc
    simp only [List.mem_flatMap] at hc
    obtain ⟨b, hb, hcb⟩ := hc
    exact byteToHexChars_mem b (h b hb) c hcb

/-- Character-level shape of a generated license key. -/
theorem generate_license_key_data (b1 b2 : List Nat) :
    (generate_license_key b1 b2).data =
      ['S', 'Q', 'L', 'H', '-'] ++ (token_hex b1).data.map Char.toUpper ++
        ['-'] ++ (token_hex b2).data.map Char.toUpper := by
  unfold generate_license_key pyUpper
  rw [String.data_append, String.data_append, String.data_append]

/-- Uppercasing a lowercase hexadecimal digit yields an uppercase
hexadecimal digit. -/
theorem hexDigits_toUpper (c : Char) (hc : c ∈ hexDigits) :
    isUpperHexDigit c.toUpper = true := by
  have hall : ∀ d ∈ hexDigits, isUpperHexDigit d.toUpper = true := by decide
  exact hall c hc

/-- C9: every string returned by the key generator matches
`SQLH-XXXXXXXX-XXXX`: the fixed prefix `SQLH`, a hyphen, 8 uppercase
hexadecimal characters, a hyphen, and 4 uppercase hexadecimal characters,
for any two independently drawn byte sequences (4 bytes and 2 bytes); the
generator takes no e-mail or order-id input, so the key is never derived
from them. -/
theorem generate_license_key_pattern (b1 b2 : List Nat)
    (h1 : b1.length = 4) (h2 : b2.length = 2)
    (hb1 : ∀ b ∈ b1, b < 256) (hb2 : ∀ b ∈ b2, b < 256) :
    ∃ h8 h4 : List Char,
      (generate_license_key b1 b2).data =
        ['S', 'Q', 'L', 'H', '-'] ++ h8 ++ ['-'] ++ h4 ∧
      h8.length = 8 ∧ h4.length = 4 ∧
      (∀ c ∈ h8, isUpperHexDigit c = true) ∧
      (∀ c ∈ h4, isUpperHexDigit c = true) := by
  obtain ⟨hl1, hm1⟩ := token_hex_spec b1 hb1
  obtain ⟨hl2, hm2⟩ := token_hex_spec b2 hb2
  refine ⟨(token_hex b1).data.map Char.toUpper,
    (token_hex b2).data.map Char.toUpper,
    generate_license_key_data b1 b2, ?_, ?_, ?_, ?_⟩
  · rw [List.length_map, hl1, h1]
  · rw [List.length_map, hl2, h2]
  · intro c hc
    obtain ⟨d, hd, rfl⟩ := List.mem_map.mp hc
    exact hexDigits_toUpper d (hm1 d hd)
  · intro c hc
    obtain ⟨d, hd, rfl⟩ := List.mem_map.mp hc
    exact hexDigits_toUpper d (hm2 d hd)

/-- C9 witness: the pattern theorem instantiated at concrete random bytes. -/
theorem generate_license_key_pattern_witness :
    ∃ h8 h4 : List Char,
      (generate_license_key [0, 17, 171, 255] [0, 255]).data =
        ['S', 'Q', 'L', 'H', '-'] ++ h8 ++ ['-'] ++ h4 ∧
      h8.length = 8 ∧ h4.length = 4 ∧
      (∀ c ∈ h8, isUpperHexDigit c = true) ∧
      (∀ c ∈ h4, isUpperHexDigit c = true) :=
  generate_license_key_pattern [0, 17, 171, 255] [0, 255] rfl rfl
    (by decide) (by decide)

/-- Generated license keys contain no whitespace characters. -/
theorem generate_license_key_nonspace (b1 b2 : List Nat)
    (hb1 : ∀ b ∈ b1, b < 256) (hb2 : ∀ b ∈ b2, b < 256) :
    ∀ c ∈ (generate_license_key b1 b2).data, pyIsSpace c = false := by
  intro c hc
  rw [generate_license_key_data] at hc
  have hhex : ∀ d ∈ hexDigits, pyIsSpace d.toUpper = false := by decide
  have hfix : ∀ x ∈ (['S', 'Q', 'L', 'H', '-'] : List Char), pyIsSpace x = false := by
    decide
  have hdash : ∀ x ∈ (['-'] : List Char), pyIsSpace x = false := by decide
  simp only [List.mem_append] at hc
  rcases hc with ((hA | hm1) | hC) | hm2
  · exact hfix c hA
  · obtain ⟨d, hd, rfl⟩ := List.mem_map.mp hm1
    exact hhex d ((token_hex_spec b1 hb1).2 d hd)
  · exact hdash c hC
  · obtain ⟨d, hd, rfl⟩ := List.mem_map.mp hm2
    exact hhex d ((token_hex_spec b2 hb2).2 d hd)

/-- Python strip leaves a generated license key unchanged. -/
theorem pyStrip_generate_license_key (b1 b2 : List Nat)
    (hb1 : ∀ b ∈ b1, b < 256) (hb2 : ∀ b ∈ b2, b < 256) :
    pyStrip (generate_license_key b1 b2) = generate_license_key b1 b2 :=
  pyStrip_eq_self _ (generate_license_key_nonspace b1 b2 hb1 hb2)

/-- A generated license key is never the empty string. -/
theorem generate_license_key_ne_empty (b1 b2 : List Nat) :
    generate_license_key b1 b2 ≠ "" := by
  intro h
  have h0 : (generate_license_key b1 b2).data = [] := by rw [h]
  rw [generate_license_key_data] at h0
  simp at h0

/-- C10: `add_key` never stores a null order or payment id: on every call
the inserted row carries the string values `pyOrStr o` and `pyOrStr p`
(non-null by construction), and whichever of the two arguments is absent
(`none`) or empty is written as the empty string — also in mixed calls
where only one of them is blank, the common webhook case.  Consequently all
records from payments lacking a payment id carry the same `""` payment id,
the value targeted by the `payment_id` uniqueness handling of the insert,
which removes any previous such row (the filter below). -/
theorem add_key_blank_ids (store : List Record) (k e : String)
    (o p : Option String) :
    add_key store k e o p =
      store.filter (fun r => r.license_key != k && r.payment_id != pyOrStr p) ++
        [⟨k, e, pyOrStr o, pyOrStr p⟩] ∧
    ((o = none ∨ o = some "") → pyOrStr o = "") ∧
    ((p = none ∨ p = some "") → pyOrStr p = "") := by
  refine ⟨rfl, ?_, ?_⟩
  · rintro (rfl | rfl) <;> rfl
  · rintro (rfl | rfl) <;> rfl

/-- C10 witness: a mixed concrete insert — order id present, payment id
empty — stores the order id as given and the payment id as the empty
string. -/
theorem add_key_blank_ids_witness :
    add_key [] "SQLH-AAAAAAAA-0001" "a@b.c" (some "O1") (some "") =
      List.filter (fun r => r.license_key != "SQLH-AAAAAAAA-0001" &&
        r.payment_id != pyOrStr (some "")) [] ++
        [⟨"SQLH-AAAAAAAA-0001", "a@b.c", pyOrStr (some "O1"),
          pyOrStr (some "")⟩] ∧
    ((some "O1" = (none : Option String) ∨ some "O1" = some "") →
      pyOrStr (some "O1") = "") ∧
    ((some "" = (none : Option String) ∨ some "" = some "") →
      pyOrStr (some "") = "") :=
  add_key_blank_ids [] "SQLH-AAAAAAAA-0001" "a@b.c" (some "O1") (some "")

/-- C3 counterexample: on the default SQLite backend, `INSERT OR REPLACE`
satisfies a duplicate-payment-id insert by deleting the earlier record
instead of rejecting it: after adding a second license key carrying the
same payment id, the first key no longer validates. -/
theorem add_key_payment_conflict_deletes_cex :
    is_valid_key
        (add_key [] "SQLH-AAAAAAAA-1111" "a@b.c" (some "O1") (some "P1"))
        "SQLH-AAAAAAAA-1111" = true ∧
      is_valid_key
        (add_key
          (add_key [] "SQLH-AAAAAAAA-1111" "a@b.c" (some "O1") (some "P1"))
          "SQLH-BBBBBBBB-2222" "a@b.c" (some "O2") (some "P1"))
        "SQLH-AAAAAAAA-1111" = false := by decide

/-- C3 amended: a stored record whose license key and payment id both
differ from those of the inserted row survives every `add_key`, and its key
keeps validating; the original claim fails because an add that carries the
payment id of an existing record is not rejected by the SQLite store —
`INSERT OR REPLACE` deletes the earlier record. -/
theorem add_key_preserves_nonconflicting (store : List Record) (k e : String)
    (o p : Option String) (r : Record) (hr : r ∈ store)
    (hk : r.license_key ≠ k) (hp : r.payment_id ≠ pyOrStr p)
    (htrim : pyStrip r.license_key = r.license_key) (hne : r.license_key ≠ "") :
    r ∈ add_key store k e o p ∧
      is_valid_key (add_key store k e o p) r.license_key = true := by
  have hmem : r ∈ add_key store k e o p := by
    unfold add_key
    refine List.mem_append_left _ ?_
    refine List.mem_filter.mpr ⟨hr, ?_⟩
    simp [hk, hp]
  refine ⟨hmem, ?_⟩
  unfold is_valid_key
  rw [htrim]
  simp only [Bool.or_self]
  rw [if_neg (by simp [hne]), List.any_eq_true]
  exact ⟨r, hmem, by simp⟩

/-- C3 amended witness: a record with a distinct key and payment id
survives a concrete later insert. -/
theorem add_key_preserves_nonconflicting_witness :
    (⟨"SQLH-AAAAAAAA-3333", "a@b.c", "O1", "P1"⟩ : Record) ∈
        add_key [⟨"SQLH-AAAAAAAA-3333", "a@b.c", "O1", "P1"⟩]
          "SQLH-BBBBBBBB-4444" "x@y.z" (some "O2") (some "P2") ∧
      is_valid_key
        (add_key [⟨"SQLH-AAAAAAAA-3333", "a@b.c", "O1", "P1"⟩]
          "SQLH-BBBBBBBB-4444" "x@y.z" (some "O2") (some "P2"))
        "SQLH-AAAAAAAA-3333" = true :=
  add_key_preserves_nonconflicting
    [⟨"SQLH-AAAAAAAA-3333", "a@b.c", "O1", "P1"⟩]
    "SQLH-BBBBBBBB-4444" "x@y.z" (some "O2") (some "P2")
    ⟨"SQLH-AAAAAAAA-3333", "a@b.c", "O1", "P1"⟩
    (by decide) (by decide) (by decide) (by decide) (by decide)

/-- C6 counterexample: `is_valid_key` strips its input before the exact
query, so a key with a leading space that was never added still validates
once its stripped form is stored: no record with exactly that key exists,
yet the result is `true`. -/
theorem is_valid_key_exact_match_cex :
    is_valid_key (add_key [] "SQLH-AAAAAAAA-5555" "a@b.c")
        " SQLH-AAAAAAAA-5555" = true ∧
      (add_key [] "SQLH-AAAAAAAA-5555" "a@b.c").all
        (fun r => r.license_key != " SQLH-AAAAAAAA-5555") = true := by decide

/-- C6 amended: `is_valid_key` returns true iff a record whose key equals
the whitespace-stripped input exists; every blank or whitespace-only input
returns false, and a key whose stripped form was never stored returns
false. -/
theorem is_valid_key_iff_stripped (store : List Record) (k : String) :
    is_valid_key store k = true ↔
      pyStrip k ≠ "" ∧ ∃ r ∈ store, r.license_key = pyStrip k := by
  unfold is_valid_key
  by_cases h : pyStrip k = ""
  · simp [h]
  · have hk0 : k ≠ "" := fun hkk => h (by rw [hkk]; rfl)
    rw [if_neg (by simp [h, hk0]), List.any_eq_true]
    simp [h]

/-- C7: `email_has_license` matches case-insensitively after stripping the
input: over any store whose records carry non-blank e-mails (every record
the webhook creates does), it returns true exactly when some stored e-mail
equals the stripped input up to case; in particular adding a key for
`USER@Example.com` makes `email_has_license "user@example.com"` true. -/
theorem email_has_license_iff (store : List Record) (e : String)
    (hstore : ∀ r ∈ store, r.email ≠ "") :
    email_has_license store e = true ↔
      ∃ r ∈ store, pyLower r.email = pyLower (pyStrip e) := by
  by_cases h : pyStrip e = ""
  · have hL : email_has_license store e = false := by
      unfold email_has_license
      simp [h]
    rw [hL]
    simp only [Bool.false_eq_true, false_iff, not_exists]
    rintro r ⟨hr, hlow⟩
    rw [h] at hlow
    have hre : r.email = "" := (pyLower_eq_empty_iff r.email).mp (by rw [hlow]; rfl)
    exact hstore r hr hre
  · have he : e ≠ "" := fun hee => h (by rw [hee]; rfl)
    unfold email_has_license
    rw [if_neg (by simp [h, he]), List.any_eq_true]
    simp

/-- C7 witness: the case-insensitivity instance named by the spec. -/
theorem email_has_license_iff_witness :
    email_has_license (add_key [] "SQLH-AAAAAAAA-6666" "USER@Example.com")
      "user@example.com" = true :=
  (email_has_license_iff (add_key [] "SQLH-AAAAAAAA-6666" "USER@Example.com")
    "user@example.com" (by decide)).mpr (by decide)

/-- C8 counterexample: `get_key_by_order` selects with no ORDER BY and
`fetchone`, returning the first row in scan order: with two stored records
carrying order id `ORD123`, it yields the earlier key, not the most
recently added one. -/
theorem get_key_by_order_latest_cex :
    get_key_by_order
        (add_key (add_key [] "SQLH-AAAAAAAA-7777" "a@b.c" (some "ORD123") (some "PX1"))
          "SQLH-BBBBBBBB-8888" "c@d.e" (some "ORD123") (some "PX2"))
        "ORD123" = some "SQLH-AAAAAAAA-7777" ∧
      get_key_by_order
        (add_key (add_key [] "SQLH-AAAAAAAA-7777" "a@b.c" (some "ORD123") (some "PX1"))
          "SQLH-BBBBBBBB-8888" "c@d.e" (some "ORD123") (some "PX2"))
        "ORD123" ≠ some "SQLH-BBBBBBBB-8888" := by decide

/-- C8 amended: after `add key email order payment` on a store holding no
record with that order id, `get_key_by_order` returns the added key; when
several surviving records carry the same order id the lookup yields the
earliest-added (first-scanned) one, not the latest. -/
theorem get_key_by_order_after_add (store : List Record) (k e o p : String)
    (h : ∀ r ∈ store, r.order_id ≠ o) :
    get_key_by_order (add_key store k e (some o) (some p)) o = some k := by
  unfold get_key_by_order add_key
  rw [List.find?_append]
  have h1 : (store.filter
      (fun r => r.license_key != k && r.payment_id != pyOrStr (some p))).find?
        (fun r => r.order_id == o) = none := by
    rw [List.find?_eq_none]
    intro r hr
    simp [h r (List.mem_filter.mp hr).1]
  rw [h1]
  simp [pyOrStr_some]

/-- C8 amended witness: a concrete add followed by the order lookup. -/
theorem get_key_by_order_after_add_witness :
    get_key_by_order
        (add_key [] "SQLH-AAAAAAAA-9999" "a@b.c" (some "ORD123") (some "PY1"))
        "ORD123" = some "SQLH-AAAAAAAA-9999" :=
  get_key_by_order_after_add [] "SQLH-AAAAAAAA-9999" "a@b.c" "ORD123" "PY1"
    (by decide)

/-- C1: every webhook request whose configured secret is empty, whose
signature header is empty, or whose signature the verification library
rejects or throws on, is answered 400 with `ok = false` and
`error = "Invalid signature"`, and the store is unchanged — regardless of
the payload content. -/
theorem webhook_bad_signature_rejected (webhookSecret signature : String)
    (libVerifies : Bool) (data : Option (List (String × JVal)))
    (haveApiKeys : Bool) (fetchResult : Option String) (emailSent : Bool)
    (freshKey : String) (store : List Record)
    (h : webhookSecret = "" ∨ signature = "" ∨ libVerifies = false) :
    razorpay_webhook webhookSecret signature libVerifies data haveApiKeys
        fetchResult emailSent freshKey store =
      some (⟨400, [("ok", .jbool false), ("error", .jstr "Invalid signature")]⟩,
        store) := by
  have hv : verify_razorpay_signature webhookSecret signature libVerifies = false := by
    unfold verify_razorpay_signature
    rcases h with rfl | rfl | rfl
    · simp
    · simp
    · simp
  unfold razorpay_webhook
  rw [hv]
  simp

/-- C1 witness: an empty configured secret rejects a well-formed captured
payment without touching the store. -/
theorem webhook_bad_signature_rejected_witness :
    razorpay_webhook "" "sig" true
        (some [("event", JVal.jstr "payment.captured")]) false none false
        "SQLH-AAAAAAAA-0002" [] =
      some (⟨400, [("ok", .jbool false), ("error", .jstr "Invalid signature")]⟩,
        []) :=
  webhook_bad_signature_rejected "" "sig" true
    (some [("event", JVal.jstr "payment.captured")]) false none false
    "SQLH-AAAAAAAA-0002" [] (Or.inl rfl)

/-- C4: a verified webhook whose event type is neither `payment.captured`
nor `payment_link.paid` is acknowledged with 200 and an ignored message,
treated as success with no action: the store is returned unchanged. -/
theorem webhook_unrecognized_event_ignored (webhookSecret signature : String)
    (libVerifies : Bool) (data : Option (List (String × JVal)))
    (haveApiKeys : Bool) (fetchResult : Option String) (emailSent : Bool)
    (freshKey : String) (store : List Record)
    (hsec : webhookSecret ≠ "") (hsig : signature ≠ "")
    (hlib : libVerifies = true)
    (hev1 : isStrEq (dictGet (data.getD []) "event") "payment_link.paid" = false)
    (hev2 : isStrEq (dictGet (data.getD []) "event") "payment.captured" = false) :
    razorpay_webhook webhookSecret signature libVerifies data haveApiKeys
        fetchResult emailSent freshKey store =
      some (⟨200, [("ok", .jbool true), ("message", .jstr "Event ignored")]⟩,
        store) := by
  have hv : verify_razorpay_signature webhookSecret signature libVerifies = true := by
    unfold verify_razorpay_signature
    rw [if_neg (by simp [hsec, hsig]), hlib]
  unfold razorpay_webhook
  rw [hv]
  simp only [Bool.not_true, Bool.false_eq_true, if_false, hev1, hev2,
    Bool.not_false, if_true]

/-- C4 witness: a verified `refund.created` event is ignored with 200 and
an empty store stays empty. -/
theorem webhook_unrecognized_event_ignored_witness :
    razorpay_webhook "sec" "sig" true
        (some [("event", JVal.jstr "refund.created")]) false none false
        "SQLH-AAAAAAAA-0003" [] =
      some (⟨200, [("ok", .jbool true), ("message", .jstr "Event ignored")]⟩,
        []) :=
  webhook_unrecognized_event_ignored "sec" "sig" true
    (some [("event", JVal.jstr "refund.created")]) false none false
    "SQLH-AAAAAAAA-0003" [] (by decide) (by decide) rfl (by decide) (by decide)

/-- A whitespace-free non-empty key validates in the store produced by
adding it. -/
theorem is_valid_key_add_self (store : List Record) (k e : String)
    (o p : Option String) (htrim : pyStrip k = k) (hk : k ≠ "") :
    is_valid_key (add_key store k e o p) k = true := by
  unfold is_valid_key add_key
  rw [htrim]
  rw [if_neg (by simp [hk]), List.any_eq_true]
  exact ⟨⟨k, e, pyOrStr o, pyOrStr p⟩,
    List.mem_append_right _ (List.mem_singleton.mpr rfl), by simp⟩

/-- C5: a verified webhook of a recognized event type whose extraction —
including the best-effort payment-fetch fallback of `payment.captured` —
yields a missing or blank e-mail is answered with a 400 error response and
no record is added: the store is returned unchanged. -/
theorem webhook_blank_email_rejected (webhookSecret signature : String)
    (libVerifies : Bool) (data : Option (List (String × JVal)))
    (haveApiKeys : Bool) (fetchResult : Option String) (emailSent : Bool)
    (freshKey : String) (store : List Record) (o p : String)
    (hsec : webhookSecret ≠ "") (hsig : signature ≠ "")
    (hlib : libVerifies = true)
    (hcase :
      (isStrEq (dictGet (data.getD []) "event") "payment_link.paid" = true ∧
        extract_payment_link
          ((dictGet (data.getD []) "payload").getD (.jobj [])) =
            some ("", o, p)) ∨
      (isStrEq (dictGet (data.getD []) "event") "payment_link.paid" = false ∧
        isStrEq (dictGet (data.getD []) "event") "payment.captured" = true ∧
        ∃ e0, extract_payment_captured
            ((dictGet (data.getD []) "payload").getD (.jobj [])) =
              some (e0, o, p) ∧
          captured_email e0 p haveApiKeys fetchResult = "")) :
    razorpay_webhook webhookSecret signature libVerifies data haveApiKeys
        fetchResult emailSent freshKey store =
      some (⟨400, [("ok", .jbool false),
        ("error", .jstr "Missing email in payment_link.paid")]⟩, store) ∨
    razorpay_webhook webhookSecret signature libVerifies data haveApiKeys
        fetchResult emailSent freshKey store =
      some (⟨400, [("ok", .jbool false), ("error", .jstr "Missing email")]⟩,
        store) := by
  have hv : verify_razorpay_signature webhookSecret signature libVerifies = true := by
    unfold verify_razorpay_signature
    rw [if_neg (by simp [hsec, hsig]), hlib]
  rcases hcase with ⟨hev, hex⟩ | ⟨hev1, hev2, e0, hex, hmail⟩
  · left
    unfold razorpay_webhook
    rw [hv]
    simp only [Bool.not_true, Bool.false_eq_true, if_false, hev, if_true, hex]
    rfl
  · right
    unfold razorpay_webhook
    rw [hv]
    simp only [Bool.not_true, Bool.false_eq_true, if_false, hev1, hev2,
      Bool.not_false, if_true, hex, hmail]
    rfl

/-- C5 witness: a verified `payment_link.paid` event without a customer
e-mail is rejected with 400 and the store stays empty. -/
theorem webhook_blank_email_rejected_witness :
    razorpay_webhook "sec" "sig" true
        (some [("event", JVal.jstr "payment_link.paid"),
          ("payload", JVal.jobj [("payment_link", JVal.jobj
            [("entity", JVal.jobj [("reference_id", JVal.jstr "O1")])])])])
        false none false "SQLH-AAAAAAAA-0004" [] =
      some (⟨400, [("ok", .jbool false),
        ("error", .jstr "Missing email in payment_link.paid")]⟩, []) ∨
    razorpay_webhook "sec" "sig" true
        (some [("event", JVal.jstr "payment_link.paid"),
          ("payload", JVal.jobj [("payment_link", JVal.jobj
            [("entity", JVal.jobj [("reference_id", JVal.jstr "O1")])])])])
        false none false "SQLH-AAAAAAAA-0004" [] =
      some (⟨400, [("ok", .jbool false), ("error", .jstr "Missing email")]⟩,
        []) :=
  webhook_blank_email_rejected "sec" "sig" true
    (some [("event", JVal.jstr "payment_link.paid"),
      ("payload", JVal.jobj [("payment_link", JVal.jobj
        [("entity", JVal.jobj [("reference_id", JVal.jstr "O1")])])])])
    false none false "SQLH-AAAAAAAA-0004" [] "O1" ""
    (by decide) (by decide) rfl (Or.inl ⟨by decide, by decide⟩)

/-- C2: a verified webhook of a recognized event type (`payment_link.paid`
or `payment.captured`) whose payload — including the fetch fallback —
yields a non-empty e-mail makes the handler store the freshly generated key
with the extracted `(email, order_id, payment_id)` via `add_key`, answer
200 with `ok = true`, the license key and the mail flag, and the returned
key validates (`is_valid_key` is true) afterwards. -/
theorem webhook_recognized_email_issues_key (webhookSecret signature : String)
    (libVerifies : Bool) (data : Option (List (String × JVal)))
    (haveApiKeys : Bool) (fetchResult : Option String) (emailSent : Bool)
    (b1 b2 : List Nat) (freshKey : String) (store : List Record)
    (email o p : String)
    (hsec : webhookSecret ≠ "") (hsig : signature ≠ "")
    (hlib : libVerifies = true)
    (hb1 : ∀ b ∈ b1, b < 256) (hb2 : ∀ b ∈ b2, b < 256)
    (hkey : freshKey = generate_license_key b1 b2)
    (hemail : email ≠ "")
    (hcase :
      (isStrEq (dictGet (data.getD []) "event") "payment_link.paid" = true ∧
        extract_payment_link
          ((dictGet (data.getD []) "payload").getD (.jobj [])) =
            some (email, o, p)) ∨
      (isStrEq (dictGet (data.getD []) "event") "payment_link.paid" = false ∧
        isStrEq (dictGet (data.getD []) "event") "payment.captured" = true ∧
        ∃ e0, extract_payment_captured
            ((dictGet (data.getD []) "payload").getD (.jobj [])) =
              some (e0, o, p) ∧
          captured_email e0 p haveApiKeys fetchResult = email)) :
    razorpay_webhook webhookSecret signature libVerifies data haveApiKeys
        fetchResult emailSent freshKey store =
      some (⟨200, [("ok", .jbool true), ("license_key", .jstr freshKey),
        ("email_sent", .jbool emailSent)]⟩,
        add_key store freshKey email (some o) (some p)) ∧
    is_valid_key (add_key store freshKey email (some o) (some p))
      freshKey = true := by
  have hv : verify_razorpay_signature webhookSecret signature libVerifies = true := by
    unfold verify_razorpay_signature
    rw [if_neg (by simp [hsec, hsig]), hlib]
  have hvalid : is_valid_key (add_key store freshKey email (some o) (some p))
      freshKey = true := by
    subst hkey
    exact is_valid_key_add_self store _ email (some o) (some p)
      (pyStrip_generate_license_key b1 b2 hb1 hb2)
      (generate_license_key_ne_empty b1 b2)
  refine ⟨?_, hvalid⟩
  rcases hcase with ⟨hev, hex⟩ | ⟨hev1, hev2, e0, hex, hmail⟩
  · unfold razorpay_webhook
    rw [hv]
    simp only [Bool.not_true, Bool.false_eq_true, if_false, hev, if_true, hex]
    rw [if_neg (by simp [hemail])]
  · unfold razorpay_webhook
    rw [hv]
    simp only [Bool.not_true, Bool.false_eq_true, if_false, hev1, hev2,
      Bool.not_false, if_true, hex, hmail]
    rw [if_neg (by simp [hemail])]

/-- C2 witness: a verified `payment_link.paid` event with a customer
e-mail issues a concrete generated key, stores it and validates it. -/
theorem webhook_recognized_email_issues_key_witness :
    razorpay_webhook "sec" "sig" true
        (some [("event", JVal.jstr "payment_link.paid"),
          ("payload", JVal.jobj [("payment_link", JVal.jobj
            [("entity", JVal.jobj
              [("customer", JVal.jobj [("email", JVal.jstr "a@b.c")]),
               ("reference_id", JVal.jstr "O1"),
               ("payments", JVal.jarr [JVal.jobj [("id", JVal.jstr "P1")]])])])])])
        false none true (generate_license_key [0, 0, 0, 0] [0, 0]) [] =
      some (⟨200, [("ok", .jbool true),
        ("license_key", .jstr (generate_license_key [0, 0, 0, 0] [0, 0])),
        ("email_sent", .jbool true)]⟩,
        add_key [] (generate_license_key [0, 0, 0, 0] [0, 0]) "a@b.c"
          (some "O1") (some "P1")) ∧
    is_valid_key
      (add_key [] (generate_license_key [0, 0, 0, 0] [0, 0]) "a@b.c"
        (some "O1") (some "P1"))
      (generate_license_key [0, 0, 0, 0] [0, 0]) = true :=
  webhook_recognized_email_issues_key "sec" "sig" true
    (some [("event", JVal.jstr "payment_link.paid"),
      ("payload", JVal.jobj [("payment_link", JVal.jobj
        [("entity", JVal.jobj
          [("customer", JVal.jobj [("email", JVal.jstr "a@b.c")]),
           ("reference_id", JVal.jstr "O1"),
           ("payments", JVal.jarr [JVal.jobj [("id", JVal.jstr "P1")]])])])])])
    false none true [0, 0, 0, 0] [0, 0]
    (generate_license_key [0, 0, 0, 0] [0, 0]) [] "a@b.c" "O1" "P1"
    (by decide) (by decide) rfl (by decide) (by decide) rfl (by decide)
    (Or.inl ⟨by decide, by decide⟩)
